import Mathlib

/-!
Shallow embedding of the `AdminV1` smart contract
(`src/contracts/AdminV1.sol`) of the nanobond-web repository.

Modelling conventions:
* Addresses and 256-bit unsigned integers are `Nat`.  Solidity 0.8 uses
  checked arithmetic, so every multiplication/addition that could exceed
  `2^256 - 1` is guarded by an explicit bound check that aborts the call,
  and the guarded subtraction `issuedUnits -= units` is ordinary `Nat`
  subtraction (the `require units <= issuedUnits` runs first).
* A public call takes the pre-state plus `msg.sender` / `msg.value` /
  `block.timestamp` as needed and returns `Except String result`:
  `.error` models `revert` (the EVM discards every state change of the
  call, so an error carries no state — full rollback is definitional).
* External effects (HTS token-service calls, native HBAR `call{value}`
  transfers) are resolved by an `Env` oracle: `nativeOk to amount` says
  whether a low-level value transfer to `to` succeeds, and the `hts*`
  flags give the response codes of the token-service precompile.
* Successful native-currency transfers performed by a call are returned
  as a list of `(recipient, amount)` pairs, and emitted events as a
  `List Event`, so that theorems can speak about payouts and events.
* Solidity mappings default to zero-valued records: `issuers` and
  `bonds` are total functions defaulting to the all-zero `Issuer` /
  `Bond` (enum value 0 is `Draft`).
* `pause` / `unpause` call OpenZeppelin `PausableUpgradeable._pause` /
  `_unpause`, which carry the `whenNotPaused` / `whenPaused` modifiers:
  pausing an already-paused contract reverts, as does unpausing a
  non-paused one.  `onlyOwner` (OwnableUpgradeable) reverts when
  `msg.sender` is not the stored owner.
-/

namespace AdminV1

/-- `2^256`, the modulus of Solidity `uint256`; checked arithmetic
reverts when a result would reach it. -/
def U256 : Nat := 2 ^ 256

/-- `type(int64).max`, the bound enforced by `_int64Safe`. -/
def INT64_MAX : Nat := 2 ^ 63 - 1

/-- `MIN_ISSUE_FEE = 20 * 10**8` tinybars. -/
def MIN_ISSUE_FEE : Nat := 20 * 10 ^ 8

/-- `enum BondStatus { Draft, Submitted, InReview, Approved, Issued, Matured, Settled }` -/
inductive BondStatus
  | Draft
  | Submitted
  | InReview
  | Approved
  | Issued
  | Matured
  | Settled
  deriving DecidableEq

/-- `struct Issuer { address wallet; bool kycApproved; bool connected; }` -/
structure Issuer where
  wallet : Nat
  kycApproved : Bool
  connected : Bool
  deriving DecidableEq

/-- Zero value of `Issuer`, the mapping default. -/
def Issuer.zero : Issuer := ⟨0, false, false⟩

/-- `struct Bond` of AdminV1.  `htsTokenId` is `bytes` holding either
nothing (empty, pre-issuance) or an abi-encoded token address, modelled
as `Option Nat`; `abi.decode` of the empty bytes reverts. -/
structure Bond where
  id : Nat
  issuer : Nat
  interestRateBP : Nat
  couponRateBP : Nat
  faceValue : Nat
  availableUnits : Nat
  targetUSD : Nat
  durationSec : Nat
  maturityTimestamp : Nat
  status : BondStatus
  htsTokenId : Option Nat
  issuedUnits : Nat
  deriving DecidableEq

/-- Zero value of `Bond`, the mapping default (enum 0 = `Draft`,
empty `bytes`). -/
def Bond.zero : Bond :=
  ⟨0, 0, 0, 0, 0, 0, 0, 0, 0, .Draft, none, 0⟩

/-- Contract storage of AdminV1 (owner and pause flag live in the
OpenZeppelin base contracts). -/
structure State where
  owner : Nat
  paused : Bool
  legacyHTSManager : Nat
  treasury : Nat
  nextBondId : Nat
  issuers : Nat → Issuer
  bonds : Nat → Bond

/-- Events declared by AdminV1 that the modelled operations emit. -/
inductive Event
  | IssuerRegistered (issuer wallet : Nat)
  | KYCApproved (issuer : Nat)
  | BondCreated (bondId issuer : Nat)
  | BondApproved (bondId : Nat)
  | HTSIssued (bondId tokenAddr : Nat)
  | BondPurchased (bondId buyer amount hbarPaid : Nat)
  | HBARForwarded (bondId recipient amount : Nat)
  | BondMatured (bondId : Nat)
  | BondRedeemed (bondId investor hbarPaid : Nat)
  | HTSBurned (bondId amount : Nat)
  deriving DecidableEq

/-- Oracle for the external calls a transaction makes: `nativeOk to amt`
is the success of `to.call{value: amt}("")`; the `hts*` flags say whether
the corresponding token-service call returns `SUCCESS`; `createdToken`
is the token address returned by `createFungibleToken`. -/
structure Env where
  nativeOk : Nat → Nat → Bool
  htsTransferOk : Bool
  htsBurnOk : Bool
  htsCreateOk : Bool
  createdToken : Nat

/-- `initialize(_legacyHTSManager, _treasury, _owner)`: sets the owner,
unpauses, stores the two addresses and starts `_nextBondId` at 1. -/
def initContract (legacy treas ownerAddr : Nat) : State :=
  { owner := ownerAddr
    paused := false
    legacyHTSManager := legacy
    treasury := treas
    nextBondId := 1
    issuers := fun _ => Issuer.zero
    bonds := fun _ => Bond.zero }

/-- `registerIssuer(address wallet)` — `whenNotPaused`; writes the
caller's record's `wallet` and `connected` fields only. -/
def registerIssuer (s : State) (sender wallet : Nat) :
    Except String (State × List Event) :=
  if s.paused then .error "paused"
  else
    let old := s.issuers sender
    let upd := Function.update s.issuers sender
      { old with wallet := wallet, connected := true }
    .ok ({ s with issuers := upd }, [.IssuerRegistered sender wallet])

/-- `approveKYC(address issuer)` — `onlyOwner`; sets `kycApproved`. -/
def approveKYC (s : State) (sender issuer : Nat) :
    Except String (State × List Event) :=
  if sender = s.owner then
    let old := s.issuers issuer
    .ok ({ s with issuers :=
             Function.update s.issuers issuer ({ old with kycApproved := true }) },
         [.KYCApproved issuer])
  else .error "not owner"

/-- `revokeKYC(address issuer)` — `onlyOwner`; clears `kycApproved`. -/
def revokeKYC (s : State) (sender issuer : Nat) : Except String State :=
  if sender = s.owner then
    let old := s.issuers issuer
    .ok { s with issuers :=
            Function.update s.issuers issuer ({ old with kycApproved := false }) }
  else .error "not owner"

/-- `createBond(issuer, interestRateBP, couponRateBP, faceValue,
availableUnits, targetUSD, durationSec, maturityTimestamp)` —
`onlyOwner`; `uint256 id = _nextBondId++` (checked increment), stores
the terms verbatim with status `Submitted`, empty `htsTokenId` and
`issuedUnits = 0`, and returns `id`. -/
def createBond (s : State)
    (sender issuer interestRateBP couponRateBP faceValue availableUnits
      targetUSD durationSec maturityTimestamp : Nat) :
    Except String (State × List Event × Nat) :=
  if sender = s.owner then
    if s.nextBondId + 1 < U256 then
      let id := s.nextBondId
      let b : Bond :=
        { id := id
          issuer := issuer
          interestRateBP := interestRateBP
          couponRateBP := couponRateBP
          faceValue := faceValue
          availableUnits := availableUnits
          targetUSD := targetUSD
          durationSec := durationSec
          maturityTimestamp := maturityTimestamp
          status := .Submitted
          htsTokenId := none
          issuedUnits := 0 }
      .ok ({ s with nextBondId := id + 1
                    bonds := Function.update s.bonds id b },
           [.BondCreated id issuer], id)
    else .error "arithmetic overflow"
  else .error "not owner"

/-- `approveBond(uint256 bondId)` — `onlyOwner`; requires status
`Submitted` or `InReview` and the issuer's `kycApproved`. -/
def approveBond (s : State) (sender bondId : Nat) :
    Except String (State × List Event) :=
  if sender = s.owner then
    if (s.bonds bondId).status = .Submitted ∨ (s.bonds bondId).status = .InReview then
      if (s.issuers (s.bonds bondId).issuer).kycApproved then
        .ok ({ s with bonds := Function.update s.bonds bondId ({ s.bonds bondId with status := .Approved }) },
             [.BondApproved bondId])
      else .error "issuer KYC required"
    else .error "invalid status"
  else .error "not owner"

/-- The bond-storage update `issueBond` performs on success:
`htsTokenId = abi.encode(createdToken)`, `issuedUnits = amount`,
`status = Issued`. -/
def issuePost (s : State) (bondId amount createdToken : Nat) : State :=
  { s with bonds := Function.update s.bonds bondId ({ s.bonds bondId with htsTokenId := some createdToken, issuedUnits := amount, status := .Issued }) }

/-- The storage update `buyBond` performs on success:
`issuedUnits -= units` on the purchased bond. -/
def buyPost (s : State) (bondId units : Nat) : State :=
  { s with bonds := Function.update s.bonds bondId ({ s.bonds bondId with issuedUnits := (s.bonds bondId).issuedUnits - units }) }

/-- `redeemBond`'s payout: `principal = faceValue * units`,
`interest = principal * interestRateBP / 10000` with truncating `Nat`
division, `payout = principal + interest`. -/
def payoutOf (b : Bond) (units : Nat) : Nat :=
  b.faceValue * units + b.faceValue * units * b.interestRateBP / 10000

/-- `issueBond(bondId, name, symbol, metadata, amount)` — `onlyOwner
whenNotPaused`; requires status `Approved`, `amount > 0`,
`amount == availableUnits`, `msg.value >= MIN_ISSUE_FEE`; then
`_createAndMintToken` requires non-empty name and symbol, checks
`_int64Safe(amount)` and the token-service response; on success the
bond records the token id, `issuedUnits = amount` and status `Issued`. -/
def issueBond (s : State) (sender msgValue bondId : Nat)
    (name symbol : String) (_metadata : List Nat) (amount : Nat) (env : Env) :
    Except String (State × List Event × Nat) :=
  if sender = s.owner then
    if s.paused then .error "paused"
    else
      if (s.bonds bondId).status = .Approved then
        if amount > 0 then
          if amount = (s.bonds bondId).availableUnits then
            if MIN_ISSUE_FEE ≤ msgValue then
              if name.length > 0 then
                if symbol.length > 0 then
                  if amount ≤ INT64_MAX then
                    if env.htsCreateOk then
                      .ok (issuePost s bondId amount env.createdToken,
                           [.HTSIssued bondId env.createdToken],
                           env.createdToken)
                    else .error "HTS create failed"
                  else .error "overflow int64"
                else .error "symbol required"
              else .error "name required"
            else .error "insufficient issue fee"
          else .error "amount mismatch"
        else .error "amount=0"
      else .error "bond not approved"
  else .error "not owner"

/-- `buyBond(uint256 bondId, uint256 units)` — `nonReentrant
whenNotPaused`, payable; requires status `Issued`,
`0 < units <= issuedUnits`, `msg.value == faceValue * units` (the
multiplication itself is checked); `_transferFromTreasury` decodes the
token id (`abi.decode` reverts on the empty bytes, i.e. on `none`),
checks nonzero token/recipient, `_int64Safe(units)` and the
HTS response; then `issuedUnits -= units`, `BondPurchased` is emitted
and `_forwardHBAR` sends `msg.value` to the issuer's registered wallet,
falling back to the treasury, reverting if both transfers fail. -/
def buyBond (s : State) (sender msgValue bondId units : Nat) (env : Env) :
    Except String (State × List Event × List (Nat × Nat)) :=
  if s.paused then .error "paused"
  else
    if (s.bonds bondId).status = .Issued then
      if units > 0 ∧ units ≤ (s.bonds bondId).issuedUnits then
        if (s.bonds bondId).faceValue * units < U256 then
          if msgValue = (s.bonds bondId).faceValue * units then
            if (s.bonds bondId).htsTokenId.isNone then .error "abi.decode failed"
            else
              if (s.bonds bondId).htsTokenId.getD 0 = 0 then .error "token=0"
              else if sender = 0 then .error "to=0"
              else if units ≤ INT64_MAX then
                if env.htsTransferOk then
                  if env.nativeOk ((s.issuers (s.bonds bondId).issuer).wallet) msgValue then
                    .ok (buyPost s bondId units,
                         [.BondPurchased bondId sender units msgValue,
                          .HBARForwarded bondId ((s.issuers (s.bonds bondId).issuer).wallet) msgValue],
                         [(((s.issuers (s.bonds bondId).issuer).wallet), msgValue)])
                  else if env.nativeOk s.treasury msgValue then
                    .ok (buyPost s bondId units,
                         [.BondPurchased bondId sender units msgValue,
                          .HBARForwarded bondId s.treasury msgValue],
                         [(s.treasury, msgValue)])
                  else .error "HBAR forward failed"
                else .error "HTS transfer failed"
              else .error "overflow int64"
          else .error "incorrect HBAR sent"
        else .error "arithmetic overflow"
      else .error "invalid units"
    else .error "bond not issued"

/-- `markMature(uint256 bondId)` — `onlyOwner`; requires
`block.timestamp >= maturityTimestamp` (checked first) and status
`Issued`; sets status `Matured`. -/
def markMature (s : State) (sender now bondId : Nat) :
    Except String (State × List Event) :=
  if sender = s.owner then
    if (s.bonds bondId).maturityTimestamp ≤ now then
      if (s.bonds bondId).status = .Issued then
        .ok ({ s with bonds := Function.update s.bonds bondId ({ s.bonds bondId with status := .Matured }) },
             [.BondMatured bondId])
      else .error "invalid status"
    else .error "not matured yet"
  else .error "not owner"

/-- `redeemBond(uint256 bondId, uint256 units)` — `nonReentrant
whenNotPaused`; requires status `Matured` and `units > 0`; computes
`principal = faceValue * units`,
`interest = principal * interestRateBP / 10000` (truncating division),
`payout = principal + interest` (all checked);
`_transferFromInvestorAndBurn` decodes the token id, checks nonzero
token/sender, `_int64Safe(units)`, the HTS transfer and burn responses;
then pays `payout` to the caller via a low-level call, reverting on
failure (no treasury fallback).  Contract storage is unchanged. -/
def redeemBond (s : State) (sender bondId units : Nat) (env : Env) :
    Except String (State × List Event × List (Nat × Nat)) :=
  if s.paused then .error "paused"
  else
    if (s.bonds bondId).status = .Matured then
      if units > 0 then
        if (s.bonds bondId).faceValue * units < U256 then
          if (s.bonds bondId).faceValue * units * (s.bonds bondId).interestRateBP < U256 then
            if (s.bonds bondId).faceValue * units +
                (s.bonds bondId).faceValue * units * (s.bonds bondId).interestRateBP / 10000 < U256 then
              if (s.bonds bondId).htsTokenId.isNone then .error "abi.decode failed"
              else
                if (s.bonds bondId).htsTokenId.getD 0 = 0 then .error "token=0"
                else if sender = 0 then .error "from=0"
                else if units ≤ INT64_MAX then
                  if env.htsTransferOk then
                    if env.htsBurnOk then
                      if env.nativeOk sender (payoutOf (s.bonds bondId) units) then
                        .ok (s,
                             [.HTSBurned bondId units,
                              .BondRedeemed bondId sender (payoutOf (s.bonds bondId) units)],
                             [(sender, payoutOf (s.bonds bondId) units)])
                      else .error "HBAR payout failed"
                    else .error "HTS burn failed"
                  else .error "HTS transfer failed"
                else .error "overflow int64"
            else .error "arithmetic overflow"
          else .error "arithmetic overflow"
        else .error "arithmetic overflow"
      else .error "zero units"
    else .error "bond not matured"

/-- `pause()` — `onlyOwner`, then OpenZeppelin `_pause()`, which has the
`whenNotPaused` modifier: it reverts if the contract is already paused. -/
def pause (s : State) (sender : Nat) : Except String State :=
  if sender = s.owner then
    if s.paused then .error "enforced pause"
    else .ok { s with paused := true }
  else .error "not owner"

/-- `unpause()` — `onlyOwner`, then OpenZeppelin `_unpause()`, which has
the `whenPaused` modifier: it reverts if the contract is not paused. -/
def unpause (s : State) (sender : Nat) : Except String State :=
  if sender = s.owner then
    if s.paused then .ok { s with paused := false }
    else .error "expected pause"
  else .error "not owner"

/-! ## Helper lemmas -/

/-- Anything a successful `buyBond` call guarantees: the guards held and
the result is the escrow-decremented state together with exactly one
native transfer, to the issuer's wallet when that transfer succeeds and
to the treasury otherwise. -/
lemma buyBond_ok_elim (s : State) (sender msgValue bondId units : Nat)
    (env : Env) (out : State × List Event × List (Nat × Nat))
    (h : buyBond s sender msgValue bondId units env = .ok out) :
    s.paused = false ∧
    (s.bonds bondId).status = .Issued ∧
    0 < units ∧
    units ≤ (s.bonds bondId).issuedUnits ∧
    msgValue = (s.bonds bondId).faceValue * units ∧
    out.1 = buyPost s bondId units ∧
    out.2.2 = (if env.nativeOk ((s.issuers (s.bonds bondId).issuer).wallet) msgValue
               then [((s.issuers (s.bonds bondId).issuer).wallet, msgValue)]
               else [(s.treasury, msgValue)]) := by
  rw [buyBond.eq_def] at h
  by_cases c1 : s.paused = true
  · rw [if_pos c1] at h; cases h
  rw [if_neg c1] at h
  by_cases c2 : (s.bonds bondId).status = BondStatus.Issued
  case neg => rw [if_neg c2] at h; cases h
  rw [if_pos c2] at h
  by_cases c3 : units > 0 ∧ units ≤ (s.bonds bondId).issuedUnits
  case neg => rw [if_neg c3] at h; cases h
  rw [if_pos c3] at h
  by_cases c4 : (s.bonds bondId).faceValue * units < U256
  case neg => rw [if_neg c4] at h; cases h
  rw [if_pos c4] at h
  by_cases c5 : msgValue = (s.bonds bondId).faceValue * units
  case neg => rw [if_neg c5] at h; cases h
  rw [if_pos c5] at h
  by_cases c6 : (s.bonds bondId).htsTokenId.isNone = true
  · rw [if_pos c6] at h; cases h
  rw [if_neg c6] at h
  by_cases c7 : (s.bonds bondId).htsTokenId.getD 0 = 0
  · rw [if_pos c7] at h; cases h
  rw [if_neg c7] at h
  by_cases c8 : sender = 0
  · rw [if_pos c8] at h; cases h
  rw [if_neg c8] at h
  by_cases c9 : units ≤ INT64_MAX
  case neg => rw [if_neg c9] at h; cases h
  rw [if_pos c9] at h
  by_cases c10 : env.htsTransferOk = true
  case neg => rw [if_neg c10] at h; cases h
  rw [if_pos c10] at h
  by_cases c11 : env.nativeOk ((s.issuers (s.bonds bondId).issuer).wallet) msgValue = true
  · rw [if_pos c11] at h
    cases h
    exact ⟨by simpa using c1, c2, c3.1, c3.2, c5, rfl, by rw [if_pos c11]⟩
  rw [if_neg c11] at h
  by_cases c12 : env.nativeOk s.treasury msgValue = true
  · rw [if_pos c12] at h
    cases h
    exact ⟨by simpa using c1, c2, c3.1, c3.2, c5, rfl, by rw [if_neg c11]⟩
  rw [if_neg c12] at h
  cases h

/-- Anything a successful `redeemBond` call guarantees: the guards held,
storage is untouched, and the whole output is determined: tokens burned,
one payout of `principal + interest` to the caller. -/
lemma redeemBond_ok_elim (s : State) (sender bondId units : Nat)
    (env : Env) (out : State × List Event × List (Nat × Nat))
    (h : redeemBond s sender bondId units env = .ok out) :
    s.paused = false ∧
    (s.bonds bondId).status = .Matured ∧
    0 < units ∧
    out = (s,
      [Event.HTSBurned bondId units,
       Event.BondRedeemed bondId sender (payoutOf (s.bonds bondId) units)],
      [(sender, payoutOf (s.bonds bondId) units)]) := by
  rw [redeemBond.eq_def] at h
  by_cases c1 : s.paused = true
  · rw [if_pos c1] at h; cases h
  rw [if_neg c1] at h
  by_cases c2 : (s.bonds bondId).status = BondStatus.Matured
  case neg => rw [if_neg c2] at h; cases h
  rw [if_pos c2] at h
  by_cases c3 : units > 0
  case neg => rw [if_neg c3] at h; cases h
  rw [if_pos c3] at h
  by_cases c4 : (s.bonds bondId).faceValue * units < U256
  case neg => rw [if_neg c4] at h; cases h
  rw [if_pos c4] at h
  by_cases c5 : (s.bonds bondId).faceValue * units * (s.bonds bondId).interestRateBP < U256
  case neg => rw [if_neg c5] at h; cases h
  rw [if_pos c5] at h
  by_cases c6 : (s.bonds bondId).faceValue * units + (s.bonds bondId).faceValue * units * (s.bonds bondId).interestRateBP / 10000 < U256
  case neg => rw [if_neg c6] at h; cases h
  rw [if_pos c6] at h
  by_cases c7 : (s.bonds bondId).htsTokenId.isNone = true
  · rw [if_pos c7] at h; cases h
  rw [if_neg c7] at h
  by_cases c8 : (s.bonds bondId).htsTokenId.getD 0 = 0
  · rw [if_pos c8] at h; cases h
  rw [if_neg c8] at h
  by_cases c9 : sender = 0
  · rw [if_pos c9] at h; cases h
  rw [if_neg c9] at h
  by_cases c10 : units ≤ INT64_MAX
  case neg => rw [if_neg c10] at h; cases h
  rw [if_pos c10] at h
  by_cases c11 : env.htsTransferOk = true
  case neg => rw [if_neg c11] at h; cases h
  rw [if_pos c11] at h
  by_cases c12 : env.htsBurnOk = true
  case neg => rw [if_neg c12] at h; cases h
  rw [if_pos c12] at h
  by_cases c13 : env.nativeOk sender (payoutOf (s.bonds bondId) units) = true
  · rw [if_pos c13] at h
    cases h
    exact ⟨by simpa using c1, c2, c3, rfl⟩
  rw [if_neg c13] at h
  cases h

/-! ## Concrete sample states for witnesses -/

/-- An issuer record with wallet `5`, KYC-approved and connected. -/
def issuerSeven : Issuer := ⟨5, true, true⟩

/-- A matured bond: `faceValue = 100`, `interestRateBP = 500`,
token minted (`htsTokenId = abi.encode(9)`), 1000 units outstanding. -/
def maturedBond : Bond :=
  ⟨1, 7, 500, 800, 100, 1000, 100000, 31536000, 50, .Matured, some 9, 1000⟩

/-- Contract state holding `maturedBond` as bond 1, owner `1`,
treasury `3`. -/
def maturedState : State :=
  { owner := 1
    paused := false
    legacyHTSManager := 0
    treasury := 3
    nextBondId := 2
    issuers := Function.update (fun _ => Issuer.zero) 7 issuerSeven
    bonds := Function.update (fun _ => Bond.zero) 1 maturedBond }

/-- Environment where every external call succeeds. -/
def allOkEnv : Env := ⟨fun _ _ => true, true, true, true, 9⟩

/-- Environment where native transfers succeed only towards address `3`
(the treasury of the sample states); all token-service calls succeed. -/
def treasuryOnlyEnv : Env := ⟨fun recipient _ => decide (recipient = 3), true, true, true, 9⟩

/-- The output of a successful 5-unit redemption of `maturedBond` by
caller `4`: payout `525 = 500 + 25`. -/
def maturedRedeemOut : State × List Event × List (Nat × Nat) :=
  (maturedState, [Event.HTSBurned 1 5, Event.BondRedeemed 1 4 525], [(4, 525)])

/-! ## Claim theorems -/

/-- C1: for every bond with status `Matured` and every `units > 0`, a
successful `redeemBond(bondId, units)` pays the caller exactly
`principal + interest` in native currency, where
`principal = faceValue * units` and
`interest = principal * interestRateBP / 10000` with truncating integer
division. -/
theorem redeemBond_pays_principal_plus_interest
    (s : State) (sender bondId units : Nat) (env : Env)
    (out : State × List Event × List (Nat × Nat))
    (h : redeemBond s sender bondId units env = .ok out) :
    (s.bonds bondId).status = .Matured ∧ 0 < units ∧
    out.2.2 = [(sender,
      (s.bonds bondId).faceValue * units +
      (s.bonds bondId).faceValue * units * (s.bonds bondId).interestRateBP / 10000)] := by
  obtain ⟨-, h2, h3, h4⟩ := redeemBond_ok_elim s sender bondId units env out h
  refine ⟨h2, h3, ?_⟩
  rw [h4, payoutOf]

/-- C1 witness: `faceValue = 100`, `units = 5`, `interestRateBP = 500`
gives `principal = 500`, `interest = 25`, payout `525`. -/
theorem redeemBond_pays_principal_plus_interest_witness :
    redeemBond maturedState 4 1 5 allOkEnv = Except.ok maturedRedeemOut ∧
    ((maturedState.bonds 1).status = .Matured ∧ 0 < 5 ∧
      maturedRedeemOut.2.2 = [(4,
        (maturedState.bonds 1).faceValue * 5 +
        (maturedState.bonds 1).faceValue * 5 * (maturedState.bonds 1).interestRateBP / 10000)]) :=
  ⟨rfl, redeemBond_pays_principal_plus_interest maturedState 4 1 5 allOkEnv maturedRedeemOut rfl⟩

/-- C5: in `redeemBond`, if the native payout transfer to the caller
fails, the entire redemption reverts with `"HBAR payout failed"` — in
the `Except` model a revert carries no state, so the token pull and burn
roll back too — and no treasury fallback is attempted: the theorem holds
for every `env`, including those whose `nativeOk` accepts the treasury
address. -/
theorem redeemBond_payout_failure_reverts
    (s : State) (sender bondId units tok : Nat) (env : Env)
    (hp : s.paused = false)
    (hst : (s.bonds bondId).status = .Matured)
    (hu : units > 0)
    (hov1 : (s.bonds bondId).faceValue * units < U256)
    (hov2 : (s.bonds bondId).faceValue * units * (s.bonds bondId).interestRateBP < U256)
    (hov3 : (s.bonds bondId).faceValue * units + (s.bonds bondId).faceValue * units * (s.bonds bondId).interestRateBP / 10000 < U256)
    (htok : (s.bonds bondId).htsTokenId = some tok) (htok0 : tok ≠ 0)
    (hs0 : sender ≠ 0) (hi64 : units ≤ INT64_MAX)
    (ht : env.htsTransferOk = true) (hb : env.htsBurnOk = true)
    (hfail : env.nativeOk sender (payoutOf (s.bonds bondId) units) = false) :
    redeemBond s sender bondId units env = .error "HBAR payout failed" := by
  rw [redeemBond.eq_def, if_neg (by simp [hp]), if_pos hst, if_pos hu, if_pos hov1,
    if_pos hov2, if_pos hov3, if_neg (by simp [htok]), if_neg (by simp [htok, htok0]),
    if_neg hs0, if_pos hi64, if_pos ht, if_pos hb, if_neg (by simp [hfail])]

/-- C5 witness: redemption by caller `4` reverts when the caller rejects
the payout, even though the treasury (address `3`) would accept the same
amount. -/
theorem redeemBond_payout_failure_reverts_witness :
    redeemBond maturedState 4 1 5 treasuryOnlyEnv = Except.error "HBAR payout failed" ∧
    treasuryOnlyEnv.nativeOk 3 525 = true :=
  ⟨redeemBond_payout_failure_reverts maturedState 4 1 5 9 treasuryOnlyEnv rfl rfl
      (by decide) (by decide) (by decide) (by decide) rfl (by decide) (by decide)
      (by decide) rfl rfl rfl,
   rfl⟩

/-- Forward characterization of `buyBond` when every guard up to the
HBAR forwarding holds: the call succeeds through the issuer wallet, or
through the treasury, and reverts only when both transfers fail. -/
lemma buyBond_ok_intro (s : State) (sender msgValue bondId units tok : Nat) (env : Env)
    (hp : s.paused = false)
    (hst : (s.bonds bondId).status = .Issued)
    (hu0 : units > 0) (hule : units ≤ (s.bonds bondId).issuedUnits)
    (hov : (s.bonds bondId).faceValue * units < U256)
    (hv : msgValue = (s.bonds bondId).faceValue * units)
    (htok : (s.bonds bondId).htsTokenId = some tok) (htok0 : tok ≠ 0)
    (hs0 : sender ≠ 0) (hi64 : units ≤ INT64_MAX) (ht : env.htsTransferOk = true) :
    buyBond s sender msgValue bondId units env =
      (if env.nativeOk ((s.issuers (s.bonds bondId).issuer).wallet) msgValue then
        .ok (buyPost s bondId units,
             [.BondPurchased bondId sender units msgValue,
              .HBARForwarded bondId ((s.issuers (s.bonds bondId).issuer).wallet) msgValue],
             [(((s.issuers (s.bonds bondId).issuer).wallet), msgValue)])
      else if env.nativeOk s.treasury msgValue then
        .ok (buyPost s bondId units,
             [.BondPurchased bondId sender units msgValue,
              .HBARForwarded bondId s.treasury msgValue],
             [(s.treasury, msgValue)])
      else .error "HBAR forward failed") := by
  rw [buyBond.eq_def, if_neg (by simp [hp]), if_pos hst, if_pos ⟨hu0, hule⟩, if_pos hov,
    if_pos hv, if_neg (by simp [htok]), if_neg (by simp [htok, htok0]), if_neg hs0,
    if_pos hi64, if_pos ht]

/-- An issued bond: `faceValue = 100`, token minted, 1000 escrowed
units available for sale. -/
def issuedBond : Bond :=
  ⟨1, 7, 500, 800, 100, 1000, 100000, 31536000, 9999999, .Issued, some 9, 1000⟩

/-- Contract state holding `issuedBond` as bond 1; its issuer (address 7)
is registered with wallet 5; owner `1`, treasury `3`. -/
def issuedState : State :=
  { owner := 1
    paused := false
    legacyHTSManager := 0
    treasury := 3
    nextBondId := 2
    issuers := Function.update (fun _ => Issuer.zero) 7 issuerSeven
    bonds := Function.update (fun _ => Bond.zero) 1 issuedBond }

/-- The output of a successful 5-unit purchase forwarded to the issuer
wallet (address 5). -/
def buyWalletOut : State × List Event × List (Nat × Nat) :=
  (buyPost issuedState 1 5,
   [Event.BondPurchased 1 4 5 500, Event.HBARForwarded 1 5 500],
   [(5, 500)])

/-- C2: in `buyBond`, after the token units move to the buyer and
`issuedUnits` is decremented (both recorded in `buyPost`), the entire
attached payment goes to the issuer's registered wallet; if that
transfer fails, the same amount goes to the stored treasury and the
purchase still succeeds, emitting `HBARForwarded` with the treasury as
recipient; if the treasury transfer also fails the whole purchase
reverts (in the `Except` model an error retains no partial state). -/
theorem buyBond_forward_fallback
    (s : State) (sender msgValue bondId units tok : Nat) (env : Env)
    (hp : s.paused = false)
    (hst : (s.bonds bondId).status = .Issued)
    (hu0 : units > 0) (hule : units ≤ (s.bonds bondId).issuedUnits)
    (hov : (s.bonds bondId).faceValue * units < U256)
    (hv : msgValue = (s.bonds bondId).faceValue * units)
    (htok : (s.bonds bondId).htsTokenId = some tok) (htok0 : tok ≠ 0)
    (hs0 : sender ≠ 0) (hi64 : units ≤ INT64_MAX) (ht : env.htsTransferOk = true) :
    (env.nativeOk ((s.issuers (s.bonds bondId).issuer).wallet) msgValue = true →
      buyBond s sender msgValue bondId units env =
        .ok (buyPost s bondId units,
             [.BondPurchased bondId sender units msgValue,
              .HBARForwarded bondId ((s.issuers (s.bonds bondId).issuer).wallet) msgValue],
             [(((s.issuers (s.bonds bondId).issuer).wallet), msgValue)])) ∧
    (env.nativeOk ((s.issuers (s.bonds bondId).issuer).wallet) msgValue = false →
      env.nativeOk s.treasury msgValue = true →
      buyBond s sender msgValue bondId units env =
        .ok (buyPost s bondId units,
             [.BondPurchased bondId sender units msgValue,
              .HBARForwarded bondId s.treasury msgValue],
             [(s.treasury, msgValue)])) ∧
    (env.nativeOk ((s.issuers (s.bonds bondId).issuer).wallet) msgValue = false →
      env.nativeOk s.treasury msgValue = false →
      buyBond s sender msgValue bondId units env = .error "HBAR forward failed") := by
  refine ⟨fun hw => ?_, fun hw htr => ?_, fun hw htr => ?_⟩ <;>
    rw [buyBond_ok_intro s sender msgValue bondId units tok env hp hst hu0 hule hov hv
          htok htok0 hs0 hi64 ht]
  · rw [if_pos hw]
  · rw [if_neg (by simp [hw]), if_pos htr]
  · rw [if_neg (by simp [hw]), if_neg (by simp [htr])]

/-- C2 witness: with the issuer wallet (address 5) rejecting transfers
and the treasury (address 3) accepting them, the purchase still
succeeds and the payment lands at the treasury. -/
theorem buyBond_forward_fallback_witness :
    treasuryOnlyEnv.nativeOk ((issuedState.issuers (issuedState.bonds 1).issuer).wallet) 500 = false ∧
    treasuryOnlyEnv.nativeOk issuedState.treasury 500 = true ∧
    buyBond issuedState 4 500 1 5 treasuryOnlyEnv =
      .ok (buyPost issuedState 1 5,
           [.BondPurchased 1 4 5 500, .HBARForwarded 1 3 500],
           [(3, 500)]) :=
  ⟨rfl, rfl,
    (buyBond_forward_fallback issuedState 4 500 1 5 9 treasuryOnlyEnv rfl rfl
        (by decide) (by decide) (by decide) rfl rfl (by decide) (by decide)
        (by decide) rfl).2.1 rfl rfl⟩

/-- C3: `buyBond(bondId, units)` succeeds only if the bond is `Issued`,
`0 < units ≤ issuedUnits`, and the attached payment equals
`faceValue * units` exactly; any other payment is rejected (and, in the
`Except` model, a rejection carries no state change). -/
theorem buyBond_requires_exact_payment
    (s : State) (sender msgValue bondId units : Nat) (env : Env) :
    (∀ out, buyBond s sender msgValue bondId units env = .ok out →
      (s.bonds bondId).status = .Issued ∧ 0 < units ∧
      units ≤ (s.bonds bondId).issuedUnits ∧
      msgValue = (s.bonds bondId).faceValue * units) ∧
    (msgValue ≠ (s.bonds bondId).faceValue * units →
      ∃ e, buyBond s sender msgValue bondId units env = .error e) := by
  constructor
  · intro out h
    obtain ⟨-, h2, h3, h4, h5, -, -⟩ := buyBond_ok_elim s sender msgValue bondId units env out h
    exact ⟨h2, h3, h4, h5⟩
  · intro hne
    cases hres : buyBond s sender msgValue bondId units env with
    | ok out =>
      obtain ⟨-, -, -, -, h5, -, -⟩ := buyBond_ok_elim s sender msgValue bondId units env out hres
      exact absurd h5 hne
    | error e => exact ⟨e, rfl⟩

/-- C3 witness: a successful purchase of 5 units at `faceValue = 100`
carried exactly 500; and an overpayment of 501 is rejected. -/
theorem buyBond_requires_exact_payment_witness :
    buyBond issuedState 4 500 1 5 allOkEnv = Except.ok buyWalletOut ∧
    ((issuedState.bonds 1).status = .Issued ∧ 0 < 5 ∧
      5 ≤ (issuedState.bonds 1).issuedUnits ∧
      500 = (issuedState.bonds 1).faceValue * 5) ∧
    buyBond issuedState 4 501 1 5 allOkEnv = Except.error "incorrect HBAR sent" :=
  ⟨rfl, (buyBond_requires_exact_payment issuedState 4 500 1 5 allOkEnv).1 buyWalletOut rfl, rfl⟩

/-- Everything a successful `issueBond` call guarantees: caller is the
owner, not paused, the bond was `Approved`, the minted `amount` is
positive and equals `availableUnits`, the issue fee was attached, and
the post-state records the token with `issuedUnits = amount`. -/
lemma issueBond_ok_elim (s : State) (sender msgValue bondId : Nat)
    (name symbol : String) (md : List Nat) (amount : Nat) (env : Env)
    (out : State × List Event × Nat)
    (h : issueBond s sender msgValue bondId name symbol md amount env = .ok out) :
    sender = s.owner ∧ s.paused = false ∧
    (s.bonds bondId).status = .Approved ∧ 0 < amount ∧
    amount = (s.bonds bondId).availableUnits ∧ MIN_ISSUE_FEE ≤ msgValue ∧
    out.1 = issuePost s bondId amount env.createdToken := by
  rw [issueBond.eq_def] at h
  by_cases c1 : sender = s.owner
  case neg => rw [if_neg c1] at h; cases h
  rw [if_pos c1] at h
  by_cases c2 : s.paused = true
  · rw [if_pos c2] at h; cases h
  rw [if_neg c2] at h
  by_cases c3 : (s.bonds bondId).status = BondStatus.Approved
  case neg => rw [if_neg c3] at h; cases h
  rw [if_pos c3] at h
  by_cases c4 : amount > 0
  case neg => rw [if_neg c4] at h; cases h
  rw [if_pos c4] at h
  by_cases c5 : amount = (s.bonds bondId).availableUnits
  case neg => rw [if_neg c5] at h; cases h
  rw [if_pos c5] at h
  by_cases c6 : MIN_ISSUE_FEE ≤ msgValue
  case neg => rw [if_neg c6] at h; cases h
  rw [if_pos c6] at h
  by_cases c7 : name.length > 0
  case neg => rw [if_neg c7] at h; cases h
  rw [if_pos c7] at h
  by_cases c8 : symbol.length > 0
  case neg => rw [if_neg c8] at h; cases h
  rw [if_pos c8] at h
  by_cases c9 : amount ≤ INT64_MAX
  case neg => rw [if_neg c9] at h; cases h
  rw [if_pos c9] at h
  by_cases c10 : env.htsCreateOk = true
  case neg => rw [if_neg c10] at h; cases h
  rw [if_pos c10] at h
  cases h
  exact ⟨c1, by simpa using c2, c3, c4, c5, c6, rfl⟩

/-- One `buyBond` transaction of a purchase sequence: its caller, its
attached payment, the units bought and the external-call oracle. -/
structure Purchase where
  sender : Nat
  msgValue : Nat
  units : Nat
  env : Env

/-- Total units bought by a purchase sequence. -/
def sumUnits (ps : List Purchase) : Nat := (ps.map Purchase.units).sum

/-- Run a sequence of `buyBond` transactions against one bond,
propagating the state; the first revert aborts the run. -/
def runPurchases (bondId : Nat) : State → List Purchase → Except String State
  | s, [] => .ok s
  | s, p :: ps =>
    match buyBond s p.sender p.msgValue bondId p.units p.env with
    | .ok out => runPurchases bondId out.1 ps
    | .error e => .error e

/-- After any successful purchase sequence the bond's `issuedUnits` is
the starting value minus the units sold, and the units sold never
exceed the starting value. -/
lemma runPurchases_issuedUnits (bondId : Nat) (ps : List Purchase) :
    ∀ s s1, runPurchases bondId s ps = .ok s1 →
      sumUnits ps ≤ (s.bonds bondId).issuedUnits ∧
      (s1.bonds bondId).issuedUnits = (s.bonds bondId).issuedUnits - sumUnits ps := by
  induction ps with
  | nil =>
    intro s s1 h
    simp only [runPurchases] at h
    cases h
    simp [sumUnits]
  | cons p ps ih =>
    intro s s1 h
    simp only [runPurchases] at h
    cases hb : buyBond s p.sender p.msgValue bondId p.units p.env with
    | error e => rw [hb] at h; cases h
    | ok out =>
      rw [hb] at h
      obtain ⟨-, -, -, hle, -, hpost, -⟩ :=
        buyBond_ok_elim s p.sender p.msgValue bondId p.units p.env out hb
      obtain ⟨ihle, iheq⟩ := ih out.1 s1 h
      have hbonds : (out.1.bonds bondId).issuedUnits =
          (s.bonds bondId).issuedUnits - p.units := by
        rw [hpost]
        simp [buyPost, Function.update_same]
      have hsum : sumUnits (p :: ps) = p.units + sumUnits ps := by
        simp [sumUnits]
      rw [hbonds] at ihle iheq
      constructor
      · rw [hsum]; omega
      · rw [hsum, iheq]; omega

/-- C4: `issueBond` sets `issuedUnits` to the minted amount, which must
equal `availableUnits`; each successful `buyBond` decrements
`issuedUnits` by exactly the purchased units (which cannot exceed the
current value); hence after any successful sequence of purchases
`issuedUnits` equals the starting amount minus the sum of units bought,
stays within `[0, starting amount]`, and (being a `Nat` guarded by
`units ≤ issuedUnits`) is never negative. -/
theorem issuedUnits_tracks_purchases
    (s : State) (sender msgValue bondId units amount : Nat)
    (name symbol : String) (md : List Nat) (env : Env) (ps : List Purchase) :
    (∀ out, issueBond s sender msgValue bondId name symbol md amount env = .ok out →
        amount = (s.bonds bondId).availableUnits ∧
        (out.1.bonds bondId).issuedUnits = amount) ∧
    (∀ out, buyBond s sender msgValue bondId units env = .ok out →
        units ≤ (s.bonds bondId).issuedUnits ∧
        (out.1.bonds bondId).issuedUnits = (s.bonds bondId).issuedUnits - units) ∧
    (∀ s1, runPurchases bondId s ps = .ok s1 →
        sumUnits ps ≤ (s.bonds bondId).issuedUnits ∧
        (s1.bonds bondId).issuedUnits = (s.bonds bondId).issuedUnits - sumUnits ps ∧
        (s1.bonds bondId).issuedUnits ≤ (s.bonds bondId).issuedUnits) := by
  refine ⟨fun out h => ?_, fun out h => ?_, fun s1 h => ?_⟩
  · obtain ⟨-, -, -, -, h5, -, hpost⟩ :=
      issueBond_ok_elim s sender msgValue bondId name symbol md amount env out h
    refine ⟨h5, ?_⟩
    rw [hpost]
    simp [issuePost, Function.update_same]
  · obtain ⟨-, -, -, hle, -, hpost, -⟩ :=
      buyBond_ok_elim s sender msgValue bondId units env out h
    refine ⟨hle, ?_⟩
    rw [hpost]
    simp [buyPost, Function.update_same]
  · obtain ⟨hle, heq⟩ := runPurchases_issuedUnits bondId ps s s1 h
    exact ⟨hle, heq, by omega⟩

/-- Two successful purchases against `issuedState`: 5 units for 500,
then 7 units for 700, everything external succeeding. -/
def twoPurchases : List Purchase := [⟨4, 500, 5, allOkEnv⟩, ⟨6, 700, 7, allOkEnv⟩]

/-- C4 witness: running the two purchases leaves `issuedUnits` at
`1000 - 12 = 988`. -/
theorem issuedUnits_tracks_purchases_witness :
    runPurchases 1 issuedState twoPurchases =
      Except.ok (buyPost (buyPost issuedState 1 5) 1 7) ∧
    (sumUnits twoPurchases ≤ (issuedState.bonds 1).issuedUnits ∧
      ((buyPost (buyPost issuedState 1 5) 1 7).bonds 1).issuedUnits =
        (issuedState.bonds 1).issuedUnits - sumUnits twoPurchases ∧
      ((buyPost (buyPost issuedState 1 5) 1 7).bonds 1).issuedUnits ≤
        (issuedState.bonds 1).issuedUnits) :=
  ⟨rfl,
    (issuedUnits_tracks_purchases issuedState 0 0 1 0 0 "" "" [] allOkEnv twoPurchases).2.2
      (buyPost (buyPost issuedState 1 5) 1 7) rfl⟩

/-- `markMature` reverts with `"invalid status"` whenever the caller is
the owner, the time guard passes, but the bond is not `Issued`. -/
lemma markMature_invalid_status (s : State) (sender now bondId : Nat)
    (ho : sender = s.owner) (hm : (s.bonds bondId).maturityTimestamp ≤ now)
    (hst : (s.bonds bondId).status ≠ .Issued) :
    markMature s sender now bondId = .error "invalid status" := by
  rw [markMature.eq_def, if_pos ho, if_pos hm, if_neg hst]

/-- A submitted bond (terms as in the samples, no token yet). -/
def submittedBond : Bond :=
  ⟨1, 7, 500, 800, 100, 1000, 100000, 31536000, 9999999, .Submitted, none, 0⟩

/-- Contract state holding `submittedBond` as bond 1; its issuer
(address 7) is KYC-approved; owner `1`, treasury `3`. -/
def submittedState : State :=
  { owner := 1
    paused := false
    legacyHTSManager := 0
    treasury := 3
    nextBondId := 2
    issuers := Function.update (fun _ => Issuer.zero) 7 issuerSeven
    bonds := Function.update (fun _ => Bond.zero) 1 submittedBond }

/-- The output of the owner approving `submittedBond`. -/
def approvedOut : State × List Event :=
  ({ submittedState with bonds := Function.update submittedState.bonds 1 ({ submittedState.bonds 1 with status := .Approved }) },
   [Event.BondApproved 1])

/-- C6: `approveBond(bondId)` succeeds if and only if the caller is the
owner, the bond is `Submitted` or `InReview`, and the bond's issuer
record has `kycApproved = true`; on success the bond's status becomes
`Approved` (everything else unchanged); on failure the `Except` model
retains no state change. -/
theorem approveBond_kyc_gate (s : State) (sender bondId : Nat) :
    ((∃ out, approveBond s sender bondId = .ok out) ↔
      (sender = s.owner ∧
       ((s.bonds bondId).status = .Submitted ∨ (s.bonds bondId).status = .InReview) ∧
       (s.issuers (s.bonds bondId).issuer).kycApproved = true)) ∧
    ∀ out, approveBond s sender bondId = .ok out →
      out = ({ s with bonds := Function.update s.bonds bondId ({ s.bonds bondId with status := .Approved }) },
             [.BondApproved bondId]) := by
  have key : ∀ out, approveBond s sender bondId = .ok out →
      sender = s.owner ∧
      ((s.bonds bondId).status = .Submitted ∨ (s.bonds bondId).status = .InReview) ∧
      (s.issuers (s.bonds bondId).issuer).kycApproved = true ∧
      out = ({ s with bonds := Function.update s.bonds bondId ({ s.bonds bondId with status := .Approved }) },
             [.BondApproved bondId]) := by
    intro out h
    rw [approveBond.eq_def] at h
    by_cases c1 : sender = s.owner
    case neg => rw [if_neg c1] at h; cases h
    rw [if_pos c1] at h
    by_cases c2 : (s.bonds bondId).status = BondStatus.Submitted ∨
        (s.bonds bondId).status = BondStatus.InReview
    case neg => rw [if_neg c2] at h; cases h
    rw [if_pos c2] at h
    by_cases c3 : (s.issuers (s.bonds bondId).issuer).kycApproved = true
    case neg => rw [if_neg c3] at h; cases h
    rw [if_pos c3] at h
    cases h
    exact ⟨c1, c2, c3, rfl⟩
  constructor
  · constructor
    · rintro ⟨out, h⟩
      obtain ⟨a, b, c, -⟩ := key out h
      exact ⟨a, b, c⟩
    · rintro ⟨c1, c2, c3⟩
      exact ⟨_, by rw [approveBond.eq_def, if_pos c1, if_pos c2, if_pos c3]⟩
  · intro out h
    exact (key out h).2.2.2

/-- C6 witness: the owner approves the submitted bond of a KYC-approved
issuer and the status becomes `Approved`. -/
theorem approveBond_kyc_gate_witness :
    approveBond submittedState 1 1 = Except.ok approvedOut ∧
    approvedOut = ({ submittedState with bonds := Function.update submittedState.bonds 1 ({ submittedState.bonds 1 with status := .Approved }) },
                   [Event.BondApproved 1]) :=
  ⟨rfl, (approveBond_kyc_gate submittedState 1 1).2 approvedOut rfl⟩

/-- C7: `markMature(bondId)` succeeds if and only if the caller is the
owner, the block time is at least the bond's `maturityTimestamp`, and
the bond is `Issued`; on success the status becomes `Matured`, so a
second owner call at any later time reverts with `"invalid status"`. -/
theorem markMature_spec (s : State) (sender now bondId : Nat) :
    ((∃ out, markMature s sender now bondId = .ok out) ↔
      (sender = s.owner ∧ (s.bonds bondId).maturityTimestamp ≤ now ∧
       (s.bonds bondId).status = .Issued)) ∧
    ∀ out, markMature s sender now bondId = .ok out →
      out = ({ s with bonds := Function.update s.bonds bondId ({ s.bonds bondId with status := .Matured }) },
             [.BondMatured bondId]) ∧
      ∀ sender2 now2, sender2 = s.owner → now ≤ now2 →
        markMature out.1 sender2 now2 bondId = .error "invalid status" := by
  have key : ∀ out, markMature s sender now bondId = .ok out →
      sender = s.owner ∧ (s.bonds bondId).maturityTimestamp ≤ now ∧
      (s.bonds bondId).status = .Issued ∧
      out = ({ s with bonds := Function.update s.bonds bondId ({ s.bonds bondId with status := .Matured }) },
             [.BondMatured bondId]) := by
    intro out h
    rw [markMature.eq_def] at h
    by_cases c1 : sender = s.owner
    case neg => rw [if_neg c1] at h; cases h
    rw [if_pos c1] at h
    by_cases c2 : (s.bonds bondId).maturityTimestamp ≤ now
    case neg => rw [if_neg c2] at h; cases h
    rw [if_pos c2] at h
    by_cases c3 : (s.bonds bondId).status = BondStatus.Issued
    case neg => rw [if_neg c3] at h; cases h
    rw [if_pos c3] at h
    cases h
    exact ⟨c1, c2, c3, rfl⟩
  constructor
  · constructor
    · rintro ⟨out, h⟩
      obtain ⟨a, b, c, -⟩ := key out h
      exact ⟨a, b, c⟩
    · rintro ⟨c1, c2, c3⟩
      exact ⟨_, by rw [markMature.eq_def, if_pos c1, if_pos c2, if_pos c3]⟩
  · intro out h
    obtain ⟨c1, c2, c3, hout⟩ := key out h
    refine ⟨hout, fun sender2 now2 hs2 hnow => ?_⟩
    refine markMature_invalid_status out.1 sender2 now2 bondId ?_ ?_ ?_
    · rw [hout]; exact hs2
    · rw [hout]
      simpa [Function.update_same] using le_trans c2 hnow
    · rw [hout]
      simp [Function.update_same]

/-- The output of the owner maturing `issuedBond` at time 99999999. -/
def maturedOut : State × List Event :=
  ({ issuedState with bonds := Function.update issuedState.bonds 1 ({ issuedState.bonds 1 with status := .Matured }) },
   [Event.BondMatured 1])

/-- C7 witness: maturing `issuedBond` succeeds once and the second call
fails with `"invalid status"`. -/
theorem markMature_spec_witness :
    markMature issuedState 1 99999999 1 = Except.ok maturedOut ∧
    markMature maturedOut.1 1 100000000 1 = Except.error "invalid status" :=
  ⟨rfl,
    ((markMature_spec issuedState 1 99999999 1).2 maturedOut rfl).2 1 100000000 rfl
      (by decide)⟩

/-- A paused contract state with owner `1` and otherwise empty storage. -/
def pausedSample : State :=
  { owner := 1
    paused := true
    legacyHTSManager := 0
    treasury := 3
    nextBondId := 1
    issuers := fun _ => Issuer.zero
    bonds := fun _ => Bond.zero }

/-- C8 counterexample: in a paused state the owner's `pause()` call does
NOT succeed — OpenZeppelin `_pause` carries the `whenNotPaused`
modifier, so pausing an already-paused contract reverts. -/
theorem pause_while_paused_fails :
    pausedSample.paused = true ∧ pausedSample.owner = 1 ∧
    pause pausedSample 1 = Except.error "enforced pause" :=
  ⟨rfl, rfl, rfl⟩

/-- C8 (amended): in every state with the pause flag set,
`registerIssuer`, `issueBond`, `buyBond` and `redeemBond` all fail (a
revert retains no state in the `Except` model); `approveKYC` and
`unpause` called by the owner still succeed; `pause` itself fails
because the contract is already paused. -/
theorem paused_state_gating
    (s : State) (sender w msgValue bondId units amount issuerA : Nat)
    (name symbol : String) (md : List Nat) (env : Env)
    (hp : s.paused = true) :
    (∃ e, registerIssuer s sender w = Except.error e) ∧
    (∃ e, issueBond s sender msgValue bondId name symbol md amount env = Except.error e) ∧
    (∃ e, buyBond s sender msgValue bondId units env = Except.error e) ∧
    (∃ e, redeemBond s sender bondId units env = Except.error e) ∧
    approveKYC s s.owner issuerA =
      .ok ({ s with issuers := Function.update s.issuers issuerA ({ s.issuers issuerA with kycApproved := true }) },
           [.KYCApproved issuerA]) ∧
    unpause s s.owner = .ok { s with paused := false } ∧
    pause s s.owner = Except.error "enforced pause" := by
  refine ⟨⟨"paused", by rw [registerIssuer.eq_def, if_pos hp]⟩, ?_,
    ⟨"paused", by rw [buyBond.eq_def, if_pos hp]⟩,
    ⟨"paused", by rw [redeemBond.eq_def, if_pos hp]⟩,
    by rw [approveKYC.eq_def, if_pos rfl],
    by rw [unpause.eq_def, if_pos rfl, if_pos hp],
    by rw [pause.eq_def, if_pos rfl, if_pos hp]⟩
  by_cases ho : sender = s.owner
  · exact ⟨"paused", by rw [issueBond.eq_def, if_pos ho, if_pos hp]⟩
  · exact ⟨"not owner", by rw [issueBond.eq_def, if_neg ho]⟩

/-- C8 witness: the gating at the concrete paused state. -/
theorem paused_state_gating_witness :
    pausedSample.paused = true ∧
    ((∃ e, registerIssuer pausedSample 4 5 = Except.error e) ∧
     (∃ e, issueBond pausedSample 4 500 1 "N" "S" [] 1000 allOkEnv = Except.error e) ∧
     (∃ e, buyBond pausedSample 4 500 1 5 allOkEnv = Except.error e) ∧
     (∃ e, redeemBond pausedSample 4 1 5 allOkEnv = Except.error e) ∧
     approveKYC pausedSample pausedSample.owner 7 =
       .ok ({ pausedSample with issuers := Function.update pausedSample.issuers 7 ({ pausedSample.issuers 7 with kycApproved := true }) },
            [.KYCApproved 7]) ∧
     unpause pausedSample pausedSample.owner = .ok { pausedSample with paused := false } ∧
     pause pausedSample pausedSample.owner = Except.error "enforced pause") :=
  ⟨rfl, paused_state_gating pausedSample 4 5 500 1 5 1000 7 "N" "S" [] allOkEnv rfl⟩

/-- C9: `createBond` is callable only by the owner — a call by any other
sender reverts with `"not owner"` — and, when the owner calls (with the
checked `_nextBondId` increment in range), it stores the supplied terms
verbatim with status `Submitted`, empty `htsTokenId` and
`issuedUnits = 0`, returns the id `_nextBondId`, and bumps `_nextBondId`
by one — so ids are sequential, starting at 1 per `initialize`; it
validates none of the economic terms (the success equation holds for
every `faceValue`, including 0, and every `maturityTimestamp`,
including past ones). -/
theorem createBond_spec
    (s : State)
    (sender issuer interestRateBP couponRateBP faceValue availableUnits targetUSD durationSec maturityTimestamp : Nat) :
    (sender = s.owner → s.nextBondId + 1 < U256 →
      createBond s sender issuer interestRateBP couponRateBP faceValue availableUnits targetUSD durationSec maturityTimestamp =
        .ok ({ s with nextBondId := s.nextBondId + 1
                      bonds := Function.update s.bonds s.nextBondId ⟨s.nextBondId, issuer, interestRateBP, couponRateBP, faceValue, availableUnits, targetUSD, durationSec, maturityTimestamp, .Submitted, none, 0⟩ },
             [.BondCreated s.nextBondId issuer], s.nextBondId)) ∧
    (sender ≠ s.owner →
      createBond s sender issuer interestRateBP couponRateBP faceValue availableUnits targetUSD durationSec maturityTimestamp =
        Except.error "not owner") ∧
    ∀ legacy treas ownerAddr, (initContract legacy treas ownerAddr).nextBondId = 1 := by
  refine ⟨fun ho hof => ?_, fun hno => ?_, fun _ _ _ => rfl⟩
  · rw [createBond.eq_def, if_pos ho, if_pos hof]
  · rw [createBond.eq_def, if_neg hno]

/-- C9 witness: on a fresh contract the owner creates a bond with
`faceValue = 0` and a `maturityTimestamp` in the past; the call succeeds
and returns id 1, while the same call by non-owner address 2 reverts
with `"not owner"`. -/
theorem createBond_spec_witness :
    1 = (initContract 0 3 1).owner ∧
    (initContract 0 3 1).nextBondId + 1 < U256 ∧
    createBond (initContract 0 3 1) 1 7 500 800 0 1000 0 0 0 =
      Except.ok ({ (initContract 0 3 1) with nextBondId := 2, bonds := Function.update (initContract 0 3 1).bonds 1 ⟨1, 7, 500, 800, 0, 1000, 0, 0, 0, .Submitted, none, 0⟩ },
                 [Event.BondCreated 1 7], 1) ∧
    (2 : Nat) ≠ (initContract 0 3 1).owner ∧
    createBond (initContract 0 3 1) 2 7 500 800 0 1000 0 0 0 = Except.error "not owner" :=
  ⟨rfl, by decide,
    (createBond_spec (initContract 0 3 1) 1 7 500 800 0 1000 0 0 0).1 rfl (by decide),
    by decide,
    (createBond_spec (initContract 0 3 1) 2 7 500 800 0 1000 0 0 0).2.1 (by decide)⟩

/-- C10: `registerIssuer(wallet)` (when not paused) rewrites only the
caller's issuer record, setting `wallet` (any value, the zero address
included) and `connected := true` while keeping `kycApproved` exactly as
it was; records of other addresses are untouched; consequently a
subsequent successful `buyBond` of a bond of that issuer forwards the
payment to the new wallet when it accepts the transfer. -/
theorem registerIssuer_preserves_kyc
    (s : State) (sender wallet : Nat) (hp : s.paused = false) :
    registerIssuer s sender wallet =
      .ok ({ s with issuers := Function.update s.issuers sender ⟨wallet, (s.issuers sender).kycApproved, true⟩ },
           [.IssuerRegistered sender wallet]) ∧
    (∀ addr, addr ≠ sender →
      Function.update s.issuers sender (⟨wallet, (s.issuers sender).kycApproved, true⟩ : Issuer) addr = s.issuers addr) ∧
    (∀ s1 evs buyer msgValue bondId units env out,
        registerIssuer s sender wallet = .ok (s1, evs) →
        (s1.bonds bondId).issuer = sender →
        env.nativeOk wallet msgValue = true →
        buyBond s1 buyer msgValue bondId units env = .ok out →
        out.2.2 = [(wallet, msgValue)]) := by
  have main : registerIssuer s sender wallet =
      .ok ({ s with issuers := Function.update s.issuers sender ⟨wallet, (s.issuers sender).kycApproved, true⟩ },
           [.IssuerRegistered sender wallet]) := by
    rw [registerIssuer.eq_def, if_neg (by simp [hp])]
  refine ⟨main, fun addr h => Function.update_noteq h _ _, ?_⟩
  intro s1 evs buyer msgValue bondId units env out hreg hiss hwok hbuy
  rw [main] at hreg
  cases hreg
  obtain ⟨-, -, -, -, -, -, hpays⟩ :=
    buyBond_ok_elim _ buyer msgValue bondId units env out hbuy
  rw [hiss] at hpays
  have hupd : ({ s with issuers := Function.update s.issuers sender (⟨wallet, (s.issuers sender).kycApproved, true⟩ : Issuer) } : State).issuers sender = (⟨wallet, (s.issuers sender).kycApproved, true⟩ : Issuer) :=
    Function.update_same sender _ s.issuers
  rw [hupd] at hpays
  have hcond : env.nativeOk ((⟨wallet, (s.issuers sender).kycApproved, true⟩ : Issuer).wallet) msgValue = true := hwok
  rw [if_pos hcond] at hpays
  exact hpays

/-- C10 witness: the already-KYC-approved issuer (address 7) re-registers
with the zero address as wallet; the call succeeds and the record keeps
`kycApproved = true`. -/
theorem registerIssuer_preserves_kyc_witness :
    issuedState.paused = false ∧
    (issuedState.issuers 7).kycApproved = true ∧
    registerIssuer issuedState 7 0 =
      Except.ok ({ issuedState with issuers := Function.update issuedState.issuers 7 ⟨0, (issuedState.issuers 7).kycApproved, true⟩ },
                 [Event.IssuerRegistered 7 0]) :=
  ⟨rfl, rfl, (registerIssuer_preserves_kyc issuedState 7 0 rfl).1⟩

end AdminV1
